import Mathlib

/-!
# Verification of the multi-store Shopify inventory updater

Shallow embedding of `src/stock_updater.py` (the active, multi-store code
starting at the second `import` block). Pure data transformations are
embedded as Lean functions; the two remote HTTP calls (`requests.post` for
the variant lookup and for the inventory adjustment mutation) are modelled
as an oracle (`RemoteEnv`) mapping the request arguments to the response the
remote would return, exactly as the code consumes those responses
(`status_code`, and the parsed JSON navigation performed inside
`try`/`except`). Python exceptions that the code can raise during
normalization (`IndexError` from `split()[0]`, `ValueError` from `int(...)`)
are embedded with `Except`.

The remote model comes in two layers. The base layer (`RemoteEnv`,
`LookupBody`, `AdjustResponse`, `processItem`, `main`, …) covers the remote
behaviours the code survives: every request returns a response, and 200
bodies are shapes whose navigation either succeeds or raises one of the
exceptions the code catches. The refined layer (`RemoteEnvX`,
`LookupBodyX`, `AdjustBodyX`, `processItemX`, `mainX`, …, with `PyExc` for
the uncaught Python exceptions) additionally represents the paths on which
the code raises and the run aborts: `requests.post` itself raising (e.g.
`ConnectionError`), a 200 body that is not JSON (`JSONDecodeError` from
`response.json()`), and a 200 JSON body with a null intermediate on the
navigation path (`TypeError` in the lookup, `AttributeError` in the
adjustment's `.get` chain), none of which the `except` clauses cover.
-/

namespace StockUpdater

instance {ε α : Type} [DecidableEq ε] [DecidableEq α] : DecidableEq (Except ε α) := fun a b =>
  match a, b with
  | .ok x, .ok y =>
    if h : x = y then isTrue (congrArg Except.ok h)
    else isFalse (fun hh => h (Except.ok.inj hh))
  | .error x, .error y =>
    if h : x = y then isTrue (congrArg Except.error h)
    else isFalse (fun hh => h (Except.error.inj hh))
  | .ok _, .error _ => isFalse (fun hh => Except.noConfusion hh)
  | .error _, .ok _ => isFalse (fun hh => Except.noConfusion hh)

/-- A pandas cell value as the script consumes it: a string, an
integer-valued number, or the NaN placeholder pandas uses for blank cells. -/
inductive Cell where
  | str (s : String)
  | num (n : Int)
  | nan
deriving DecidableEq

/-- A raw spreadsheet row, restricted to the two columns the script reads:
`row['Code & Description']` and `row['Balance']`. `none` models the column
being absent from the row's index (the `'Code & Description' in row` /
`'Balance' in row` checks). -/
structure Row where
  codeDesc : Option Cell
  balance : Option Cell
deriving DecidableEq

/-- Python `str(...)` on a pandas cell: `str(nan)` is `"nan"`. -/
def pyStr : Cell → String
  | .str s => s
  | .num n => toString n
  | .nan => "nan"

/-- Tokenizer core for `pySplit`: walks the characters with an accumulator
holding the (reversed) current token. Structural recursion, so it evaluates
inside the kernel. -/
def pyTokensAux : List Char → List Char → List String
  | [], acc => if acc.isEmpty then [] else [String.mk acc.reverse]
  | c :: cs, acc =>
    if c.isWhitespace then
      if acc.isEmpty then pyTokensAux cs []
      else String.mk acc.reverse :: pyTokensAux cs []
    else pyTokensAux cs (c :: acc)

/-- Python `s.split()` with no separator: split on whitespace runs,
discarding empty pieces (so `" ".split()` is `[]`). -/
def pySplit (s : String) : List String :=
  pyTokensAux s.data []

/-- Python `s.lower()` (ASCII case folding, which is all the script's
`'nan'` comparison needs). -/
def pyLower (s : String) : String :=
  String.mk (s.data.map Char.toLower)

/-- `pd.notna`: false exactly on NaN. -/
def pdNotna : Cell → Bool
  | .nan => false
  | _ => true

/-- The exceptions normalization can raise: `IndexError` from
`split()[0]` on a tokenless string, `ValueError` from `int(...)` on a
non-numeric string. -/
inductive MapError where
  | indexError
  | valueError
deriving DecidableEq

/-- Digit-string accumulator for `pyIntOfString`. -/
def pyDigitsAux : List Char → Nat → Option Nat
  | [], acc => some acc
  | c :: cs, acc =>
    if c.isDigit then pyDigitsAux cs (acc * 10 + (c.toNat - 48)) else none

/-- Python `int(s)` on a string: optional sign followed by decimal digits,
`none` (a raised `ValueError`) otherwise. -/
def pyIntOfString (s : String) : Option Int :=
  match s.data with
  | [] => none
  | '-' :: c :: cs => (pyDigitsAux (c :: cs) 0).map (fun n => -(n : Int))
  | '+' :: c :: cs => (pyDigitsAux (c :: cs) 0).map (fun n => (n : Int))
  | cs => (pyDigitsAux cs 0).map (fun n => (n : Int))

/-- Python `int(cell)`: identity on integer numbers, parse for strings
(raising `ValueError` when unparsable), `ValueError` on NaN. -/
def pyInt : Cell → Except MapError Int
  | .num n => .ok n
  | .str s =>
    match pyIntOfString s with
    | some n => .ok n
    | none => .error .valueError
  | .nan => .error .valueError

/-- One normalized stock record, with the field name used by the code
(`{'sku': ..., 'inventory_quantity': ...}`). -/
structure StockRecord where
  sku : String
  inventory_quantity : Int
deriving DecidableEq

/-- The line
`sku = str(row['Code & Description']).split()[0] if 'Code & Description' in row else None`:
`none` when the column is absent, the leading whitespace token otherwise,
and `IndexError` when the string has no token at all. -/
def rowSku (r : Row) : Except MapError (Option String) :=
  match r.codeDesc with
  | none => .ok none
  | some c =>
    match (pySplit (pyStr c)).head? with
    | some t => .ok (some t)
    | none => .error .indexError

/-- `int(row['Balance']) if 'Balance' in row and pd.notna(row['Balance']) else 0`. -/
def rowQuantity (r : Row) : Except MapError Int :=
  match r.balance with
  | some c => if pdNotna c then pyInt c else .ok 0
  | none => .ok 0

/-- One iteration of the loop body of `map_excel_to_shopify`: `.ok none`
means the row was dropped (no record appended), `.error` a raised
exception that aborts the whole normalization. -/
def mapRow (r : Row) : Except MapError (Option StockRecord) :=
  match rowSku r with
  | .error e => .error e
  | .ok none => .ok none
  | .ok (some sku) =>
    if sku ≠ "" ∧ pyLower sku ≠ "nan" then
      match rowQuantity r with
      | .error e => .error e
      | .ok q => .ok (some ⟨sku, q⟩)
    else .ok none

/-- `ShopifyInventoryUpdater.map_excel_to_shopify` over the row sequence of
the downloaded dataframe, preserving row order; the first exception raised
by a row aborts the whole normalization. -/
def map_excel_to_shopify : List Row → Except MapError (List StockRecord)
  | [] => .ok []
  | r :: rest =>
    match mapRow r with
    | .error e => .error e
    | .ok rec? =>
      match map_excel_to_shopify rest with
      | .error e => .error e
      | .ok others =>
        match rec? with
        | some rcd => .ok (rcd :: others)
        | none => .ok others

/-- The JSON navigation that `get_variant_and_inventory_id` performs inside
`try`/`except` on a 200 response body, restricted to the shapes the code
survives:
`ids` — `data.productVariants.edges[0].node` exists and carries an `id` and
an `inventoryItem.id` (either may be JSON `null`, hence the `Option`s);
`noMatch` — `edges` is empty, so `edges[0]` raises `IndexError`;
`malformed` — a key on the navigation path is missing, raising `KeyError`.
Both exceptions are caught by the code and turned into `(None, None)`.
Bodies that are not JSON, or whose `data`/`productVariants`/`node`
intermediate is JSON `null`, instead raise exceptions the `except` clause
does not catch; those shapes are represented by `LookupBodyX` in the
refined layer, not here. -/
inductive LookupBody where
  | ids (variant_id inventory_item_id : Option String)
  | noMatch
  | malformed
deriving DecidableEq

/-- The lookup HTTP response as the code consumes it. -/
structure LookupResponse where
  status : Nat
  body : LookupBody
deriving DecidableEq

/-- The adjustment-mutation HTTP response as the code consumes it,
restricted to the bodies the code survives (a 200 body that is a JSON
object navigable by the `.get` chain, or any non-200 body): `userErrors` is
`result.get('data',{}).get('inventoryAdjustQuantity',{}).get('userErrors')`
(`none` when a key on the path is absent — each `.get` then returns its
default — or when the final `userErrors` value is JSON `null`); `text` is
`response.text`, used only in the failure log line. A 200 body that is not
JSON, or whose `data`/`inventoryAdjustQuantity` value is JSON `null`
(making `.get` raise `AttributeError` on `None`), aborts the run and is
represented by `AdjustBodyX` in the refined layer, not here. -/
structure AdjustResponse where
  status : Nat
  userErrors : Option (List String)
  text : String
deriving DecidableEq

/-- One store's configuration entry from the `STORES` list. -/
structure StoreConfig where
  shop_name : String
  access_token : String
  api_version : String
deriving DecidableEq

/-- The `url` field computed when a store is appended to `STORES`. -/
def storeUrl (s : StoreConfig) : String :=
  "https://" ++ s.shop_name ++ ".myshopify.com/admin/api/" ++ s.api_version ++ "/graphql.json"

/-- Oracle for the two `requests.post` calls a store's updater issues:
`lookup sku` is the response to the `getVariant` query for that SKU, and
`adjust inventory_item_id delta` the response to the
`inventoryAdjustQuantity` mutation with those variables. The functions are
total, i.e. this layer covers remotes from which every request obtains a
response; a `requests.post` call that raises (e.g. `ConnectionError` on an
unreachable endpoint) is represented by `RemoteEnvX` in the refined layer. -/
structure RemoteEnv where
  lookup : String → LookupResponse
  adjust : String → Int → AdjustResponse

/-- Severity levels of the `logging` calls the script makes. -/
inductive LogLevel where
  | debug | info | warning | error | critical
deriving DecidableEq

/-- One emitted log line. -/
structure LogEvent where
  level : LogLevel
  msg : String
deriving DecidableEq

/-- Python truthiness test `not x` on an optional string
(`None` and `""` are falsy). -/
def pyFalsyStr : Option String → Bool
  | none => true
  | some s => s == ""

/-- Python truthiness of the optional `userErrors` list
(`None` and `[]` are falsy, a non-empty list is truthy). -/
def pyTruthyErrs : Option (List String) → Bool
  | none => false
  | some l => !l.isEmpty

/-- Message of `logger.warning` in `get_variant_and_inventory_id` when the
lookup response has a non-200 status. -/
def lookupFailMsg (sku shop : String) : String :=
  "Error fetching variant for SKU " ++ sku ++ " in store " ++ shop

/-- Message of `logger.debug` in `get_variant_and_inventory_id` when the
`KeyError`/`IndexError` handler fires (no matching variant). -/
def lookupNotFoundMsg (sku shop : String) : String :=
  "Variant not found for SKU: " ++ sku ++ " in store " ++ shop

/-- Result of `get_variant_and_inventory_id`: the returned pair plus the
log line it emitted, if any. -/
structure LookupOutcome where
  variant_id : Option String
  inventory_item_id : Option String
  logs : List LogEvent
deriving DecidableEq

/-- `ShopifyInventoryUpdater.get_variant_and_inventory_id`: posts the
`getVariant` query and returns `(variant_id, inventory_item_id)`, or
`(None, None)` on a non-200 status (warning log) or when the body
navigation raises `KeyError`/`IndexError` (debug log). -/
def get_variant_and_inventory_id (store : StoreConfig) (env : RemoteEnv) (sku : String) :
    LookupOutcome :=
  let response := env.lookup sku
  if response.status ≠ 200 then
    ⟨none, none, [⟨.warning, lookupFailMsg sku store.shop_name⟩]⟩
  else
    match response.body with
    | .ids v i => ⟨v, i, []⟩
    | .noMatch => ⟨none, none, [⟨.debug, lookupNotFoundMsg sku store.shop_name⟩]⟩
    | .malformed => ⟨none, none, [⟨.debug, lookupNotFoundMsg sku store.shop_name⟩]⟩

/-- `ShopifyInventoryUpdater.update_inventory_item`: posts the adjustment
mutation and returns the raw response. -/
def update_inventory_item (env : RemoteEnv) (inventory_item_id : String) (quantity_delta : Int) :
    AdjustResponse :=
  env.adjust inventory_item_id quantity_delta

/-- Per-item outcome, read off from the four branches of the loop body of
`update_shopify_inventory`: `updated` increments `updated_count`, the other
three increment `skipped_count`. -/
inductive SyncOutcome where
  | updated
  | skippedLookup
  | skippedRemoteError
  | skippedTransport
deriving DecidableEq

/-- Message of `logger.warning` when a 200 adjustment response carries a
non-empty `userErrors` list. -/
def remoteErrMsg (sku shop : String) (errors : List String) : String :=
  "Errors updating SKU " ++ sku ++ " in " ++ shop ++ ": " ++ String.intercalate ", " errors

/-- Message of `logger.debug` on a successful adjustment. -/
def updateOkMsg (sku shop : String) : String :=
  "Successfully updated inventory for SKU: " ++ sku ++ " in " ++ shop

/-- Message of `logger.error` on a non-200 adjustment response. -/
def updateFailMsg (sku shop text : String) : String :=
  "Failed to update SKU " ++ sku ++ " in " ++ shop ++ ": " ++ text

/-- Result of one iteration of the loop in `update_shopify_inventory`:
the outcome branch taken, the per-item log lines, and the adjustment
requests issued during the iteration (the trace of mutation posts). -/
structure ItemResult where
  outcome : SyncOutcome
  logs : List LogEvent
  adjustCalls : List (String × Int)
deriving DecidableEq

/-- The loop body of `update_shopify_inventory` for one item: resolve the
SKU, skip when `inventory_item_id` is falsy, otherwise post exactly one
adjustment and classify the response. -/
def processItem (store : StoreConfig) (env : RemoteEnv) (item : StockRecord) : ItemResult :=
  let lk := get_variant_and_inventory_id store env item.sku
  if pyFalsyStr lk.inventory_item_id then
    ⟨.skippedLookup, lk.logs, []⟩
  else
    let iid := lk.inventory_item_id.getD ""
    let response := update_inventory_item env iid item.inventory_quantity
    if response.status = 200 then
      if pyTruthyErrs response.userErrors then
        ⟨.skippedRemoteError,
          lk.logs ++ [⟨.warning, remoteErrMsg item.sku store.shop_name (response.userErrors.getD [])⟩],
          [(iid, item.inventory_quantity)]⟩
      else
        ⟨.updated, lk.logs ++ [⟨.debug, updateOkMsg item.sku store.shop_name⟩],
          [(iid, item.inventory_quantity)]⟩
    else
      ⟨.skippedTransport,
        lk.logs ++ [⟨.error, updateFailMsg item.sku store.shop_name response.text⟩],
        [(iid, item.inventory_quantity)]⟩

/-- The state `update_shopify_inventory` accumulates: the two counters, the
per-item log lines, and the trace of adjustment requests issued. -/
structure SyncResult where
  updated_count : Nat
  skipped_count : Nat
  logs : List LogEvent
  adjustCalls : List (String × Int)
deriving DecidableEq

/-- The counters before the loop starts. -/
def emptySync : SyncResult := ⟨0, 0, [], []⟩

/-- One loop iteration folded into the accumulated state. -/
def stepSync (store : StoreConfig) (env : RemoteEnv) (acc : SyncResult) (item : StockRecord) :
    SyncResult :=
  let r := processItem store env item
  { updated_count := acc.updated_count + (if r.outcome = .updated then 1 else 0)
    skipped_count := acc.skipped_count + (if r.outcome = .updated then 0 else 1)
    logs := acc.logs ++ r.logs
    adjustCalls := acc.adjustCalls ++ r.adjustCalls }

/-- `ShopifyInventoryUpdater.update_shopify_inventory`: the `for item in
items` loop, returning `(updated_count, skipped_count)` together with the
per-item logs and the adjustment-request trace. -/
def update_shopify_inventory (store : StoreConfig) (env : RemoteEnv)
    (items : List StockRecord) : SyncResult :=
  items.foldl (stepSync store env) emptySync

/-- Pointwise combination of two sync states (counter sums, trace
concatenations). -/
def combineSync (a b : SyncResult) : SyncResult :=
  ⟨a.updated_count + b.updated_count, a.skipped_count + b.skipped_count,
    a.logs ++ b.logs, a.adjustCalls ++ b.adjustCalls⟩

/-- The shared FTP configuration, each field being the `os.getenv` result
(`none` = unset; the code's `not os.getenv(var)` also treats `""` as
missing). -/
structure FtpConfig where
  host : Option String
  user : Option String
  password : Option String
  filePath : Option String
deriving DecidableEq

/-- The `missing` list computed by `check_environment`. -/
def missingVars (f : FtpConfig) : List String :=
  ((["FTP_HOST", "FTP_USER", "FTP_PASS", "FTP_FILE_PATH"].zip
      [f.host, f.user, f.password, f.filePath]).filter (fun p => pyFalsyStr p.2)).map (·.1)

/-- The two `EnvironmentError`s `check_environment` can raise. -/
inductive EnvError where
  | missingFtpVars
  | noStoresConfigured
deriving DecidableEq

/-- `check_environment`: raises for missing FTP variables first, then for
an empty `STORES` list. -/
def check_environment (f : FtpConfig) (stores : List StoreConfig) : Except EnvError Unit :=
  if !(missingVars f).isEmpty then .error .missingFtpVars
  else if stores.isEmpty then .error .noStoresConfigured
  else .ok ()

/-- How a run of `main` ends: `fatalEnv` — `check_environment` raised and
the exception was re-raised by `main`'s handler; `fatalMap` — a
normalization exception propagated out of the per-store loop and was
re-raised; `ftpDownloadFailed` — the FTP download returned `None` and
`main` returned early; `summary` — the final totals were logged. -/
inductive MainOutcome where
  | fatalEnv (e : EnvError)
  | fatalMap (e : MapError)
  | ftpDownloadFailed
  | summary (total_updated total_skipped : Nat)
deriving DecidableEq

/-- Result of `main` together with how many FTP downloads it performed
(`download_excel_from_ftp` invocations). -/
structure MainResult where
  outcome : MainOutcome
  ftpFetches : Nat
deriving DecidableEq

/-- The `for store_config in STORES` loop of `main`: per store, map the
(shared) dataframe, `continue` when the mapped list is empty, otherwise
sync and accumulate the returned counts. A normalization exception
propagates out. -/
def storeLoop (rows : List Row) : List (StoreConfig × RemoteEnv) → Except MapError (Nat × Nat)
  | [] => .ok (0, 0)
  | (store, env) :: rest =>
    match map_excel_to_shopify rows with
    | .error e => .error e
    | .ok items =>
      let tally :=
        if items.isEmpty then (0, 0)
        else
          let r := update_shopify_inventory store env items
          (r.updated_count, r.skipped_count)
      match storeLoop rows rest with
      | .error e => .error e
      | .ok (tu, ts) => .ok (tally.1 + tu, tally.2 + ts)

/-- `main`, with the FTP download modelled by its result (`ftpData`,
`none` = download failed) and each configured target paired with its
remote oracle. `check_environment` runs before any download. -/
def main (f : FtpConfig) (targets : List (StoreConfig × RemoteEnv))
    (ftpData : Option (List Row)) : MainResult :=
  match check_environment f (targets.map Prod.fst) with
  | .error e => ⟨.fatalEnv e, 0⟩
  | .ok _ =>
    match ftpData with
    | none => ⟨.ftpDownloadFailed, 1⟩
    | some rows =>
      match storeLoop rows targets with
      | .error e => ⟨.fatalMap e, 1⟩
      | .ok (tu, ts) => ⟨.summary tu ts, 1⟩

/-- The `(updated, skipped)` contribution of one target to the run totals,
given the already-normalized record list: `(0, 0)` when the target is
skipped by the `continue` branch, the sync counters otherwise. -/
def tallyOf (items : List StockRecord) (t : StoreConfig × RemoteEnv) : Nat × Nat :=
  if items.isEmpty then (0, 0)
  else
    ((update_shopify_inventory t.1 t.2 items).updated_count,
      (update_shopify_inventory t.1 t.2 items).skipped_count)

/-- Sum of the per-target `updated` contributions, in configuration order. -/
def sumUpdated (items : List StockRecord) (targets : List (StoreConfig × RemoteEnv)) : Nat :=
  (targets.map (fun t => (tallyOf items t).1)).sum

/-- Sum of the per-target `skipped` contributions, in configuration order. -/
def sumSkipped (items : List StockRecord) (targets : List (StoreConfig × RemoteEnv)) : Nat :=
  (targets.map (fun t => (tallyOf items t).2)).sum

/-- Concrete FTP configuration with all four variables set (used by the
witness statements). -/
def cfgOk : FtpConfig := ⟨some "host", some "user", some "pw", some "path"⟩

/-- A concrete first store (used by the witness statements). -/
def storeA : StoreConfig := ⟨"storeA", "tokA", "2025-07"⟩

/-- A concrete second store (used by the witness statements). -/
def storeB : StoreConfig := ⟨"storeB", "tokB", "2025-07"⟩

/-- A remote oracle on which every lookup matches and every adjustment
succeeds with no `userErrors`. -/
def envGood : RemoteEnv :=
  ⟨fun _ => ⟨200, .ids (some "gid-v") (some "gid-i")⟩, fun _ _ => ⟨200, none, ""⟩⟩

/-- A remote oracle on which every request fails at the transport layer. -/
def envDown : RemoteEnv :=
  ⟨fun _ => ⟨503, .malformed⟩, fun _ _ => ⟨503, none, "service unavailable"⟩⟩

/-- A concrete one-row snapshot (the spec's first scenario row). -/
def rowsDemo : List Row := [⟨some (.str "SKU123 Blue Widget"), some (.num 14)⟩]

/-- Its normalization. -/
def itemsDemo : List StockRecord := [⟨"SKU123", 14⟩]

/-- The Python exceptions the script can raise, uncaught, while talking to
a store's remote API; they propagate through `update_shopify_inventory`
and the per-store loop to `main`'s handler, which logs and re-raises. -/
inductive PyExc where
  | connectionError
  | jsonDecodeError
  | typeError
  | attributeError
deriving DecidableEq

/-- Refined lookup-body model: the shapes of `LookupBody` plus the two the
code does not survive — `nullPath`: the body is JSON but a
`data`/`productVariants`/`node` intermediate is `null` (or not a dict), so
subscripting raises `TypeError`, which `except (KeyError, IndexError)`
does not catch; `notJson`: `response.json()` raises `JSONDecodeError`. -/
inductive LookupBodyX where
  | ids (variant_id inventory_item_id : Option String)
  | noMatch
  | malformed
  | nullPath
  | notJson
deriving DecidableEq

/-- A lookup HTTP response in the refined layer. -/
structure LookupResponseX where
  status : Nat
  body : LookupBodyX
deriving DecidableEq

/-- Refined adjustment-body model — `fields u`: a JSON object navigable by
the `.get` chain, `u` the resulting `userErrors` value (`none` = key absent
or `null`); `nullPath`: `data` or `inventoryAdjustQuantity` is JSON `null`,
so `.get` is called on `None` and raises `AttributeError` (uncaught);
`notJson`: `response.json()` raises `JSONDecodeError` (uncaught). The body
is only parsed when the status is 200. -/
inductive AdjustBodyX where
  | fields (userErrors : Option (List String))
  | nullPath
  | notJson
deriving DecidableEq

/-- An adjustment HTTP response in the refined layer. -/
structure AdjustResponseX where
  status : Nat
  body : AdjustBodyX
  text : String
deriving DecidableEq

/-- Refined remote oracle: `none` means the `requests.post` call itself
raised (e.g. `ConnectionError` on an unreachable endpoint), which nothing
in the script catches before `main`'s re-raise. -/
structure RemoteEnvX where
  lookup : String → Option LookupResponseX
  adjust : String → Int → Option AdjustResponseX

/-- `get_variant_and_inventory_id` over the refined oracle: `.error` is an
uncaught Python exception escaping the method. -/
def get_variant_and_inventory_idX (store : StoreConfig) (env : RemoteEnvX) (sku : String) :
    Except PyExc LookupOutcome :=
  match env.lookup sku with
  | none => .error .connectionError
  | some response =>
    if response.status ≠ 200 then
      .ok ⟨none, none, [⟨.warning, lookupFailMsg sku store.shop_name⟩]⟩
    else
      match response.body with
      | .ids v i => .ok ⟨v, i, []⟩
      | .noMatch => .ok ⟨none, none, [⟨.debug, lookupNotFoundMsg sku store.shop_name⟩]⟩
      | .malformed => .ok ⟨none, none, [⟨.debug, lookupNotFoundMsg sku store.shop_name⟩]⟩
      | .nullPath => .error .typeError
      | .notJson => .error .jsonDecodeError

/-- The loop body of `update_shopify_inventory` over the refined oracle:
`.error` is an uncaught exception aborting the whole sync (and run). The
response body is parsed only on status 200; a non-200 response only has its
`text` read, so its body shape cannot raise. -/
def processItemX (store : StoreConfig) (env : RemoteEnvX) (item : StockRecord) :
    Except PyExc ItemResult :=
  match get_variant_and_inventory_idX store env item.sku with
  | .error e => .error e
  | .ok lk =>
    if pyFalsyStr lk.inventory_item_id then
      .ok ⟨.skippedLookup, lk.logs, []⟩
    else
      let iid := lk.inventory_item_id.getD ""
      match env.adjust iid item.inventory_quantity with
      | none => .error .connectionError
      | some response =>
        if response.status = 200 then
          match response.body with
          | .notJson => .error .jsonDecodeError
          | .nullPath => .error .attributeError
          | .fields u =>
            if pyTruthyErrs u then
              .ok ⟨.skippedRemoteError,
                lk.logs ++ [⟨.warning, remoteErrMsg item.sku store.shop_name (u.getD [])⟩],
                [(iid, item.inventory_quantity)]⟩
            else
              .ok ⟨.updated, lk.logs ++ [⟨.debug, updateOkMsg item.sku store.shop_name⟩],
                [(iid, item.inventory_quantity)]⟩
        else
          .ok ⟨.skippedTransport,
            lk.logs ++ [⟨.error, updateFailMsg item.sku store.shop_name response.text⟩],
            [(iid, item.inventory_quantity)]⟩

/-- `update_shopify_inventory` over the refined oracle: the first uncaught
exception aborts the loop, discarding the local counters. -/
def update_shopify_inventoryX (store : StoreConfig) (env : RemoteEnvX) :
    List StockRecord → Except PyExc SyncResult
  | [] => .ok emptySync
  | item :: rest =>
    match processItemX store env item with
    | .error e => .error e
    | .ok r =>
      match update_shopify_inventoryX store env rest with
      | .error e => .error e
      | .ok acc =>
        .ok (combineSync
          ⟨if r.outcome = .updated then 1 else 0,
            if r.outcome = .updated then 0 else 1, r.logs, r.adjustCalls⟩ acc)

/-- An exception escaping the per-store loop of `main`: a normalization
exception or an uncaught remote-layer exception. Both reach `main`'s
`except Exception` handler, which logs and re-raises. -/
inductive RunError where
  | mapErr (e : MapError)
  | pyExc (e : PyExc)
deriving DecidableEq

/-- The per-store loop of `main` over the refined oracle. -/
def storeLoopX (rows : List Row) : List (StoreConfig × RemoteEnvX) → Except RunError (Nat × Nat)
  | [] => .ok (0, 0)
  | (store, env) :: rest =>
    match map_excel_to_shopify rows with
    | .error e => .error (.mapErr e)
    | .ok items =>
      if items.isEmpty then
        match storeLoopX rows rest with
        | .error e => .error e
        | .ok (tu, ts) => .ok (tu, ts)
      else
        match update_shopify_inventoryX store env items with
        | .error e => .error (.pyExc e)
        | .ok r =>
          match storeLoopX rows rest with
          | .error e => .error e
          | .ok (tu, ts) => .ok (r.updated_count + tu, r.skipped_count + ts)

/-- How a refined-layer run of `main` ends: as `MainOutcome`, but the fatal
re-raise can also carry an uncaught remote-layer exception. -/
inductive MainOutcomeX where
  | fatalEnv (e : EnvError)
  | fatalRun (e : RunError)
  | ftpDownloadFailed
  | summary (total_updated total_skipped : Nat)
deriving DecidableEq

/-- Result of `main` in the refined layer, with the FTP fetch count. -/
structure MainResultX where
  outcome : MainOutcomeX
  ftpFetches : Nat
deriving DecidableEq

/-- `main` over the refined oracle. -/
def mainX (f : FtpConfig) (targets : List (StoreConfig × RemoteEnvX))
    (ftpData : Option (List Row)) : MainResultX :=
  match check_environment f (targets.map Prod.fst) with
  | .error e => ⟨.fatalEnv e, 0⟩
  | .ok _ =>
    match ftpData with
    | none => ⟨.ftpDownloadFailed, 1⟩
    | some rows =>
      match storeLoopX rows targets with
      | .error e => ⟨.fatalRun e, 1⟩
      | .ok (tu, ts) => ⟨.summary tu ts, 1⟩

/-- Refined oracle on which every lookup matches and every adjustment
succeeds with no `userErrors`. -/
def envGoodX : RemoteEnvX :=
  ⟨fun _ => some ⟨200, .ids (some "gid-v") (some "gid-i")⟩,
    fun _ _ => some ⟨200, .fields none, ""⟩⟩

/-- Refined oracle on which every request obtains an error response
(non-success status). -/
def envDownX : RemoteEnvX :=
  ⟨fun _ => some ⟨503, .malformed⟩,
    fun _ _ => some ⟨503, .fields none, "service unavailable"⟩⟩

/-- Refined oracle on which every `requests.post` call raises (an
unreachable endpoint). -/
def envRaiseX : RemoteEnvX := ⟨fun _ => none, fun _ _ => none⟩

/-- Refined oracle on which lookups resolve but every 200 adjustment
response body has a JSON-null `data` (the `.get` chain raises
`AttributeError`). -/
def envNullAdjustX : RemoteEnvX :=
  ⟨fun _ => some ⟨200, .ids (some "gid-v") (some "gid-i")⟩,
    fun _ _ => some ⟨200, .nullPath, ""⟩⟩

/-- Refined oracle on which every 200 lookup response body has a JSON-null
`data` (navigation raises `TypeError`). -/
def envNullLookupX : RemoteEnvX :=
  ⟨fun _ => some ⟨200, .nullPath⟩, fun _ _ => some ⟨200, .fields none, ""⟩⟩

/-- Refined oracle on which lookups resolve and every adjustment gets a 200
response carrying one remote validation error. -/
def envRemoteErrX : RemoteEnvX :=
  ⟨fun _ => some ⟨200, .ids (some "gid-v") (some "gid-i")⟩,
    fun _ _ => some ⟨200, .fields (some ["insufficient quantity"]), ""⟩⟩

/-- Transcription of the spec's outcome classification for an adjustment
response (§4.4): 200 with no remote validation errors is `Updated`, 200
with a non-empty error list is `SkippedRemoteError`, non-success is
`SkippedTransportError`. Stated from the spec's words, to be compared with
the classification the code performs in `processItem`. -/
def specAdjustOutcome (resp : AdjustResponse) : SyncOutcome :=
  if resp.status = 200 then
    if (resp.userErrors.getD []).isEmpty then .updated else .skippedRemoteError
  else .skippedTransport

lemma pyTruthyErrs_eq (u : Option (List String)) :
    pyTruthyErrs u = !(u.getD []).isEmpty := by
  cases u <;> rfl

lemma combineSync_empty_left (a : SyncResult) : combineSync emptySync a = a := by
  simp [combineSync, emptySync]

lemma combineSync_empty_right (a : SyncResult) : combineSync a emptySync = a := by
  simp [combineSync, emptySync]

lemma combineSync_assoc (a b c : SyncResult) :
    combineSync (combineSync a b) c = combineSync a (combineSync b c) := by
  simp [combineSync, Nat.add_assoc]

lemma stepSync_combine (store : StoreConfig) (env : RemoteEnv) (acc : SyncResult)
    (item : StockRecord) :
    stepSync store env acc item = combineSync acc (stepSync store env emptySync item) := by
  simp [stepSync, combineSync, emptySync]

lemma foldl_stepSync_shift (store : StoreConfig) (env : RemoteEnv) :
    ∀ (items : List StockRecord) (acc : SyncResult),
      items.foldl (stepSync store env) acc =
        combineSync acc (update_shopify_inventory store env items) := by
  intro items
  induction items with
  | nil => intro acc; simp [update_shopify_inventory, combineSync_empty_right]
  | cons item rest ih =>
    intro acc
    show (rest.foldl (stepSync store env) (stepSync store env acc item)) = _
    rw [ih, stepSync_combine, combineSync_assoc]
    have : update_shopify_inventory store env (item :: rest) =
        combineSync (stepSync store env emptySync item)
          (update_shopify_inventory store env rest) := by
      show (rest.foldl (stepSync store env) (stepSync store env emptySync item)) = _
      rw [ih]
    rw [this]

lemma update_cons (store : StoreConfig) (env : RemoteEnv) (item : StockRecord)
    (rest : List StockRecord) :
    update_shopify_inventory store env (item :: rest) =
      combineSync (stepSync store env emptySync item)
        (update_shopify_inventory store env rest) := by
  show (rest.foldl (stepSync store env) (stepSync store env emptySync item)) = _
  rw [foldl_stepSync_shift]

/-- C7: within one target's sync the items are processed independently:
the sync of any concatenation of record lists is exactly the pointwise
combination of the syncs of the pieces, so no item's failure can change
what the remaining items contribute, and the orchestrator (a total
function into `SyncResult`) never raises for the modelled per-item
conditions. -/
theorem per_item_failures_isolated (store : StoreConfig) (env : RemoteEnv)
    (a b : List StockRecord) :
    update_shopify_inventory store env (a ++ b) =
      combineSync (update_shopify_inventory store env a)
        (update_shopify_inventory store env b) := by
  show ((a ++ b).foldl (stepSync store env) emptySync) = _
  rw [List.foldl_append, foldl_stepSync_shift]
  rfl

/-- C10: every item a target's sync processes lands in exactly one of the
two counters, so `updated_count + skipped_count` is the number of input
records. -/
theorem tally_partitions_items (store : StoreConfig) (env : RemoteEnv)
    (items : List StockRecord) :
    (update_shopify_inventory store env items).updated_count +
      (update_shopify_inventory store env items).skipped_count = items.length := by
  induction items with
  | nil => rfl
  | cons item rest ih =>
    rw [update_cons]
    simp only [combineSync, List.length_cons]
    simp only [stepSync, emptySync]
    cases h : (processItem store env item).outcome <;> simp <;> omega

lemma get_variant_eq (store : StoreConfig) (env : RemoteEnv) (sku : String) :
    get_variant_and_inventory_id store env sku =
      if (env.lookup sku).status ≠ 200 then
        ⟨none, none, [⟨.warning, lookupFailMsg sku store.shop_name⟩]⟩
      else
        match (env.lookup sku).body with
        | .ids v i => ⟨v, i, []⟩
        | .noMatch => ⟨none, none, [⟨.debug, lookupNotFoundMsg sku store.shop_name⟩]⟩
        | .malformed => ⟨none, none, [⟨.debug, lookupNotFoundMsg sku store.shop_name⟩]⟩ :=
  rfl

lemma get_variant_transport_fail (store : StoreConfig) (env : RemoteEnv) (sku : String)
    (h : (env.lookup sku).status ≠ 200) :
    get_variant_and_inventory_id store env sku =
      ⟨none, none, [⟨.warning, lookupFailMsg sku store.shop_name⟩]⟩ := by
  rw [get_variant_eq, if_pos h]

lemma get_variant_no_match (store : StoreConfig) (env : RemoteEnv) (sku : String)
    (h1 : (env.lookup sku).status = 200) (h2 : (env.lookup sku).body = .noMatch) :
    get_variant_and_inventory_id store env sku =
      ⟨none, none, [⟨.debug, lookupNotFoundMsg sku store.shop_name⟩]⟩ := by
  rw [get_variant_eq, if_neg (by simp [h1]), h2]

lemma processItem_skip (store : StoreConfig) (env : RemoteEnv) (item : StockRecord)
    (h : pyFalsyStr (get_variant_and_inventory_id store env item.sku).inventory_item_id = true) :
    processItem store env item =
      ⟨.skippedLookup, (get_variant_and_inventory_id store env item.sku).logs, []⟩ := by
  simp [processItem, h]

/-- C9: the two lookup-skip causes stay distinguishable in the reporting:
a transport failure during lookup is logged as a warning line and a
no-match as a debug line, the two lines differ, and both are carried into
the per-item result of the orchestrator (whose tally then counts the item
as skipped in either case). -/
theorem skip_cause_retained (store : StoreConfig) (sku : String) (d : Int)
    (envT envN : RemoteEnv)
    (hT : (envT.lookup sku).status ≠ 200)
    (hN : (envN.lookup sku).status = 200)
    (hNb : (envN.lookup sku).body = .noMatch) :
    (processItem store envT ⟨sku, d⟩).outcome = .skippedLookup ∧
    (processItem store envN ⟨sku, d⟩).outcome = .skippedLookup ∧
    (processItem store envT ⟨sku, d⟩).logs = [⟨.warning, lookupFailMsg sku store.shop_name⟩] ∧
    (processItem store envN ⟨sku, d⟩).logs = [⟨.debug, lookupNotFoundMsg sku store.shop_name⟩] ∧
    (⟨.warning, lookupFailMsg sku store.shop_name⟩ : LogEvent) ≠
      ⟨.debug, lookupNotFoundMsg sku store.shop_name⟩ := by
  have hT2 := get_variant_transport_fail store envT sku hT
  have hN2 := get_variant_no_match store envN sku hN hNb
  have pT := processItem_skip store envT ⟨sku, d⟩ (by rw [hT2]; rfl)
  have pN := processItem_skip store envN ⟨sku, d⟩ (by rw [hN2]; rfl)
  refine ⟨?_, ?_, ?_, ?_, ?_⟩
  · rw [pT]
  · rw [pN]
  · rw [pT, hT2]
  · rw [pN, hN2]
  · intro hcontra
    simp [LogEvent.mk.injEq] at hcontra

/-- Witness for C9 at two concrete environments. -/
theorem skip_cause_retained_witness :
    ((RemoteEnv.mk (fun _ => ⟨500, .noMatch⟩) (fun _ _ => ⟨200, none, ""⟩)).lookup "SKU1").status ≠ 200 ∧
    ((RemoteEnv.mk (fun _ => ⟨200, .noMatch⟩) (fun _ _ => ⟨200, none, ""⟩)).lookup "SKU1").status = 200 ∧
    (processItem ⟨"storeA", "tok", "2025-07"⟩
        (RemoteEnv.mk (fun _ => ⟨500, .noMatch⟩) (fun _ _ => ⟨200, none, ""⟩)) ⟨"SKU1", 3⟩).logs =
      [⟨.warning, lookupFailMsg "SKU1" "storeA"⟩] :=
  ⟨by decide, by decide,
    (skip_cause_retained ⟨"storeA", "tok", "2025-07"⟩ "SKU1" 3
      (RemoteEnv.mk (fun _ => ⟨500, .noMatch⟩) (fun _ _ => ⟨200, none, ""⟩))
      (RemoteEnv.mk (fun _ => ⟨200, .noMatch⟩) (fun _ _ => ⟨200, none, ""⟩))
      (by decide) (by decide) (by decide)).2.2.1⟩

lemma map_cons_eq (r : Row) (rest : List Row) :
    map_excel_to_shopify (r :: rest) =
      match mapRow r with
      | .error e => .error e
      | .ok rec? =>
        match map_excel_to_shopify rest with
        | .error e => .error e
        | .ok others =>
          match rec? with
          | some rcd => .ok (rcd :: others)
          | none => .ok others := by
  rfl

lemma map_cons_dropped (r : Row) (rest : List Row) (h : mapRow r = .ok none) :
    map_excel_to_shopify (r :: rest) = map_excel_to_shopify rest := by
  rw [map_cons_eq, h]
  cases map_excel_to_shopify rest <;> rfl

lemma map_cons_kept (r : Row) (rest : List Row) (rcd : StockRecord)
    (h : mapRow r = .ok (some rcd)) :
    map_excel_to_shopify (r :: rest) =
      (map_excel_to_shopify rest).map (fun l => rcd :: l) := by
  rw [map_cons_eq, h]
  cases map_excel_to_shopify rest <;> rfl

lemma rowSku_some (r : Row) (c : Cell) (t : String) (hc : r.codeDesc = some c)
    (ht : (pySplit (pyStr c)).head? = some t) : rowSku r = .ok (some t) := by
  simp [rowSku, hc, ht]

lemma mapRow_dropped_none (r : Row) (h : r.codeDesc = none) : mapRow r = .ok none := by
  simp [mapRow, rowSku, h]

lemma mapRow_dropped_sentinel (r : Row) (t : String) (hsku : rowSku r = .ok (some t))
    (hdrop : t = "" ∨ pyLower t = "nan") : mapRow r = .ok none := by
  have hcond : ¬(t ≠ "" ∧ pyLower t ≠ "nan") := by
    rcases hdrop with h1 | h2
    · exact fun hand => hand.1 h1
    · exact fun hand => hand.2 h2
  simp [mapRow, hsku, hcond]

lemma mapRow_kept (r : Row) (t : String) (q : Int) (hsku : rowSku r = .ok (some t))
    (hne : t ≠ "") (hnan : pyLower t ≠ "nan") (hq : rowQuantity r = .ok q) :
    mapRow r = .ok (some ⟨t, q⟩) := by
  simp [mapRow, hsku, hne, hnan, hq]

/-- Counterexample for C3: the row whose composite cell is the one-space
string has no whitespace-delimited token, i.e. no SKU can be derived
(`" ".split()` is empty, so the derived SKU is empty); the claim says such
a row is dropped silently with normalization returning the remaining
records (here `[]`), but `split()[0]` raises `IndexError`, so
normalization raises instead of returning. -/
theorem normalizer_raises_counterexample :
    map_excel_to_shopify [⟨some (.str " "), none⟩] = .error .indexError ∧
    map_excel_to_shopify [⟨some (.str " "), none⟩] ≠ .ok [] := by
  exact ⟨by decide, by decide⟩

/-- C3 as amended: a row whose composite column is absent, or whose derived
SKU (the leading whitespace token) is empty or the case-insensitive
null-sentinel `"nan"`, is dropped silently — except that when the composite
cell's string form contains no token at all (empty or all-whitespace), the
normalizer raises an `IndexError` instead of dropping the row. -/
theorem normalizer_drops_null_sku_rows (r : Row) (rest : List Row)
    (h : r.codeDesc = none ∨ ∃ c t, r.codeDesc = some c ∧
      (pySplit (pyStr c)).head? = some t ∧ (t = "" ∨ pyLower t = "nan")) :
    map_excel_to_shopify (r :: rest) = map_excel_to_shopify rest := by
  apply map_cons_dropped
  rcases h with h | ⟨c, t, hc, ht, hdrop⟩
  · exact mapRow_dropped_none r h
  · exact mapRow_dropped_sentinel r t (rowSku_some r c t hc ht) hdrop

/-- Witness for the amended C3: a row with the composite column absent is
dropped and the remaining row still normalizes. -/
theorem normalizer_drops_null_sku_rows_witness :
    (⟨none, some (.num 3)⟩ : Row).codeDesc = none ∧
    map_excel_to_shopify [⟨none, some (.num 3)⟩, ⟨some (.str "SKU1 Widget"), some (.num 2)⟩] =
      map_excel_to_shopify [⟨some (.str "SKU1 Widget"), some (.num 2)⟩] :=
  ⟨rfl, normalizer_drops_null_sku_rows ⟨none, some (.num 3)⟩
    [⟨some (.str "SKU1 Widget"), some (.num 2)⟩] (Or.inl rfl)⟩

/-- C4: a raw row that yields a valid SKU is kept; when the `Balance`
column is absent or NaN the normalized `inventory_quantity` is exactly 0,
and when it holds a value with integer value `n` the normalized
`inventory_quantity` is `n`. -/
theorem quantity_defaults_to_zero (r : Row) (rest : List Row) (c : Cell) (t : String)
    (hc : r.codeDesc = some c) (ht : (pySplit (pyStr c)).head? = some t)
    (hne : t ≠ "") (hnan : pyLower t ≠ "nan") :
    ((r.balance = none ∨ r.balance = some Cell.nan) →
      map_excel_to_shopify (r :: rest) =
        (map_excel_to_shopify rest).map (fun l => ⟨t, 0⟩ :: l)) ∧
    (∀ cb n, r.balance = some cb → pdNotna cb = true → pyInt cb = .ok n →
      map_excel_to_shopify (r :: rest) =
        (map_excel_to_shopify rest).map (fun l => ⟨t, n⟩ :: l)) := by
  have hsku : rowSku r = .ok (some t) := rowSku_some r c t hc ht
  constructor
  · intro hb
    apply map_cons_kept
    apply mapRow_kept r t 0 hsku hne hnan
    rcases hb with hb | hb <;> simp [rowQuantity, hb, pdNotna]
  · intro cb n hb hnotna hint
    apply map_cons_kept
    apply mapRow_kept r t n hsku hne hnan
    simp [rowQuantity, hb, hnotna, hint]

/-- Witness for C4 at the spec's scenario row
`{"Code & Description": "SKU999 Obsolete Part", "Balance": null}`. -/
theorem quantity_defaults_to_zero_witness :
    (⟨some (.str "SKU999 Obsolete Part"), some .nan⟩ : Row).codeDesc =
      some (.str "SKU999 Obsolete Part") ∧
    map_excel_to_shopify [⟨some (.str "SKU999 Obsolete Part"), some .nan⟩] =
      (map_excel_to_shopify []).map (fun l => ⟨"SKU999", 0⟩ :: l) :=
  ⟨rfl,
    (quantity_defaults_to_zero ⟨some (.str "SKU999 Obsolete Part"), some .nan⟩ []
      (.str "SKU999 Obsolete Part") "SKU999" rfl (by decide) (by decide) (by decide)).1
      (Or.inr rfl)⟩

lemma storeLoop_ok (rows : List Row) (items : List StockRecord)
    (hmap : map_excel_to_shopify rows = .ok items)
    (targets : List (StoreConfig × RemoteEnv)) :
    storeLoop rows targets = .ok (sumUpdated items targets, sumSkipped items targets) := by
  induction targets with
  | nil => simp [storeLoop, sumUpdated, sumSkipped]
  | cons t rest ih =>
    obtain ⟨store, env⟩ := t
    simp only [storeLoop, hmap, ih, sumUpdated, sumSkipped, List.map_cons, List.sum_cons]
    rfl

/-- C1: when the environment check passes and the snapshot normalizes, the
final run summary's totals are exactly the sums, in configuration order,
of the per-target `(updated, skipped)` contributions. -/
theorem run_summary_totals (f : FtpConfig) (targets : List (StoreConfig × RemoteEnv))
    (rows : List Row) (items : List StockRecord)
    (hck : check_environment f (targets.map Prod.fst) = .ok ())
    (hmap : map_excel_to_shopify rows = .ok items) :
    main f targets (some rows) =
      ⟨.summary (sumUpdated items targets) (sumSkipped items targets), 1⟩ := by
  simp only [main, hck, storeLoop_ok rows items hmap]

/-- Witness for C1: two stores, one healthy and one with a failing
endpoint, over the spec's scenario row. -/
theorem run_summary_totals_witness :
    check_environment cfgOk ([(storeA, envGood), (storeB, envDown)].map Prod.fst) = .ok () ∧
    map_excel_to_shopify rowsDemo = .ok itemsDemo ∧
    main cfgOk [(storeA, envGood), (storeB, envDown)] (some rowsDemo) =
      ⟨.summary (sumUpdated itemsDemo [(storeA, envGood), (storeB, envDown)])
        (sumSkipped itemsDemo [(storeA, envGood), (storeB, envDown)]), 1⟩ :=
  ⟨by decide, by decide,
    run_summary_totals cfgOk [(storeA, envGood), (storeB, envDown)] rowsDemo itemsDemo
      (by decide) (by decide)⟩

/-- C5: with zero configured targets, `main` ends in a fatal configuration
error raised by `check_environment` and performs zero FTP fetches — the
snapshot download is never reached. -/
theorem zero_targets_fatal_before_fetch (f : FtpConfig) (ftpData : Option (List Row)) :
    ∃ e, main f [] ftpData = ⟨.fatalEnv e, 0⟩ := by
  by_cases h : (missingVars f).isEmpty
  · exact ⟨.noStoresConfigured, by simp [main, check_environment, h]⟩
  · exact ⟨.missingFtpVars, by simp [main, check_environment, h]⟩

lemma get_variantX_of_resp (store : StoreConfig) (env : RemoteEnvX) (sku : String)
    (resp : LookupResponseX) (hresp : env.lookup sku = some resp) :
    get_variant_and_inventory_idX store env sku =
      if resp.status ≠ 200 then
        .ok ⟨none, none, [⟨.warning, lookupFailMsg sku store.shop_name⟩]⟩
      else
        match resp.body with
        | .ids v i => .ok ⟨v, i, []⟩
        | .noMatch => .ok ⟨none, none, [⟨.debug, lookupNotFoundMsg sku store.shop_name⟩]⟩
        | .malformed => .ok ⟨none, none, [⟨.debug, lookupNotFoundMsg sku store.shop_name⟩]⟩
        | .nullPath => .error .typeError
        | .notJson => .error .jsonDecodeError := by
  simp only [get_variant_and_inventory_idX, hresp]

/-- Counterexample for C8: a 200 lookup response whose body has a JSON-null
`data` certainly lacks the expected identifier fields, yet resolution does
not return Absent — the navigation raises a `TypeError` that the
`except (KeyError, IndexError)` clause does not catch, and it aborts the
target's whole sync. -/
theorem resolver_crash_counterexample :
    get_variant_and_inventory_idX storeA envNullLookupX "SKU404" = .error .typeError ∧
    update_shopify_inventoryX storeA envNullLookupX [⟨"SKU404", 3⟩] = .error .typeError :=
  ⟨by decide, by decide⟩

/-- C8 as amended: resolution returns Absent — not an exception — when the
lookup response has a non-success status, when it is a well-formed JSON
object with no matching records (`edges` empty), and when it is a JSON
object missing the expected identifier keys (the caught
`KeyError`/`IndexError` shapes); a 200 body that is not JSON or has a
JSON-null intermediate instead raises an uncaught exception. -/
theorem resolver_absent_not_errorX (store : StoreConfig) (env : RemoteEnvX) (sku : String)
    (resp : LookupResponseX) (hresp : env.lookup sku = some resp)
    (h : resp.status ≠ 200 ∨ resp.body = .noMatch ∨ resp.body = .malformed) :
    ∃ lk, get_variant_and_inventory_idX store env sku = .ok lk ∧
      lk.variant_id = none ∧ lk.inventory_item_id = none := by
  have heq := get_variantX_of_resp store env sku resp hresp
  rcases h with h | h | h
  · exact ⟨⟨none, none, [⟨.warning, lookupFailMsg sku store.shop_name⟩]⟩,
      by rw [heq, if_pos h], rfl, rfl⟩
  all_goals by_cases hs : resp.status ≠ 200
  · exact ⟨⟨none, none, [⟨.warning, lookupFailMsg sku store.shop_name⟩]⟩,
      by rw [heq, if_pos hs], rfl, rfl⟩
  · exact ⟨⟨none, none, [⟨.debug, lookupNotFoundMsg sku store.shop_name⟩]⟩,
      by rw [heq, if_neg hs, h], rfl, rfl⟩
  · exact ⟨⟨none, none, [⟨.warning, lookupFailMsg sku store.shop_name⟩]⟩,
      by rw [heq, if_pos hs], rfl, rfl⟩
  · exact ⟨⟨none, none, [⟨.debug, lookupNotFoundMsg sku store.shop_name⟩]⟩,
      by rw [heq, if_neg hs, h], rfl, rfl⟩

/-- Witness for the amended C8 at a concrete error-status lookup. -/
theorem resolver_absent_not_errorX_witness :
    envDownX.lookup "SKU404" = some ⟨503, .malformed⟩ ∧
    (503 : Nat) ≠ 200 ∧
    (∃ lk, get_variant_and_inventory_idX storeA envDownX "SKU404" = .ok lk ∧
      lk.variant_id = none ∧ lk.inventory_item_id = none) :=
  ⟨rfl, by decide,
    resolver_absent_not_errorX storeA envDownX "SKU404" ⟨503, .malformed⟩ rfl
      (Or.inl (by decide))⟩

/-- Counterexample for C2: a resolved item whose adjustment request gets a
200 response with a JSON-null `data` — a success response carrying no
remote validation errors — is not counted as Updated: the `.get` chain
raises an uncaught `AttributeError` and the sync (and run) aborts, so the
claimed classification is not exhaustive. -/
theorem adjuster_crash_counterexample :
    processItemX storeA envNullAdjustX ⟨"SKU7", 5⟩ = .error .attributeError ∧
    update_shopify_inventoryX storeA envNullAdjustX [⟨"SKU7", 5⟩] = .error .attributeError :=
  ⟨by decide, by decide⟩

/-- C2 as amended: for a resolved item whose adjustment response the code
survives, the classification is exactly the spec's: a 200 response with a
navigable JSON object body and no `userErrors` is Updated, with a non-empty
`userErrors` list a skip with the errors logged together with the SKU and
store, and a non-success response a skip; exactly one adjustment request is
issued for the item. A 200 response whose body is not JSON or has a
JSON-null `data`/`inventoryAdjustQuantity` instead raises an uncaught
exception that aborts the run. -/
theorem adjuster_outcome_classificationX (store : StoreConfig) (env : RemoteEnvX)
    (item : StockRecord) (lk : LookupOutcome) (resp : AdjustResponseX)
    (hlk : get_variant_and_inventory_idX store env item.sku = .ok lk)
    (hres : pyFalsyStr lk.inventory_item_id = false)
    (hpost : env.adjust (lk.inventory_item_id.getD "") item.inventory_quantity = some resp) :
    (∀ u, resp.status = 200 → resp.body = .fields u →
      ∃ r, processItemX store env item = .ok r ∧
        r.outcome = specAdjustOutcome ⟨resp.status, u, resp.text⟩ ∧
        r.adjustCalls = [(lk.inventory_item_id.getD "", item.inventory_quantity)] ∧
        (pyTruthyErrs u = true →
          (⟨.warning, remoteErrMsg item.sku store.shop_name (u.getD [])⟩ : LogEvent) ∈ r.logs)) ∧
    (resp.status ≠ 200 →
      processItemX store env item =
        .ok ⟨.skippedTransport,
          lk.logs ++ [⟨.error, updateFailMsg item.sku store.shop_name resp.text⟩],
          [(lk.inventory_item_id.getD "", item.inventory_quantity)]⟩) ∧
    (resp.status = 200 → resp.body = .nullPath →
      processItemX store env item = .error .attributeError) ∧
    (resp.status = 200 → resp.body = .notJson →
      processItemX store env item = .error .jsonDecodeError) := by
  have hstep : processItemX store env item =
      (if resp.status = 200 then
        match resp.body with
        | .notJson => .error .jsonDecodeError
        | .nullPath => .error .attributeError
        | .fields u =>
          if pyTruthyErrs u then
            .ok ⟨.skippedRemoteError,
              lk.logs ++ [⟨.warning, remoteErrMsg item.sku store.shop_name (u.getD [])⟩],
              [(lk.inventory_item_id.getD "", item.inventory_quantity)]⟩
          else
            .ok ⟨.updated, lk.logs ++ [⟨.debug, updateOkMsg item.sku store.shop_name⟩],
              [(lk.inventory_item_id.getD "", item.inventory_quantity)]⟩
      else
        .ok ⟨.skippedTransport,
          lk.logs ++ [⟨.error, updateFailMsg item.sku store.shop_name resp.text⟩],
          [(lk.inventory_item_id.getD "", item.inventory_quantity)]⟩) := by
    simp only [processItemX, hlk, hres, Bool.false_eq_true, if_false, hpost]
  refine ⟨?_, ?_, ?_, ?_⟩
  · intro u hs hb
    rw [hstep, if_pos hs, hb]
    by_cases he : pyTruthyErrs u = true
    · refine ⟨⟨.skippedRemoteError,
        lk.logs ++ [⟨.warning, remoteErrMsg item.sku store.shop_name (u.getD [])⟩],
        [(lk.inventory_item_id.getD "", item.inventory_quantity)]⟩,
        by exact if_pos he, ?_, rfl, fun _ => by simp⟩
      have he2 : (u.getD []).isEmpty = false := by
        rw [pyTruthyErrs_eq] at he
        simpa using he
      simp [specAdjustOutcome, hs, he2]
    · refine ⟨⟨.updated, lk.logs ++ [⟨.debug, updateOkMsg item.sku store.shop_name⟩],
        [(lk.inventory_item_id.getD "", item.inventory_quantity)]⟩,
        by exact if_neg he, ?_, rfl, fun hcontra => absurd hcontra he⟩
      have he2 : (u.getD []).isEmpty = true := by
        rw [pyTruthyErrs_eq] at he
        simpa using he
      simp [specAdjustOutcome, hs, he2]
  · intro hs
    rw [hstep, if_neg hs]
  · intro hs hb
    rw [hstep, if_pos hs, hb]
  · intro hs hb
    rw [hstep, if_pos hs, hb]

/-- Witness for the amended C2 at a concrete resolved item whose 200
adjustment response carries a remote validation error. -/
theorem adjuster_outcome_classificationX_witness :
    get_variant_and_inventory_idX storeA envRemoteErrX "SKU7" =
      .ok ⟨some "gid-v", some "gid-i", []⟩ ∧
    pyFalsyStr ((⟨some "gid-v", some "gid-i", []⟩ : LookupOutcome).inventory_item_id) = false ∧
    envRemoteErrX.adjust "gid-i" 5 = some ⟨200, .fields (some ["insufficient quantity"]), ""⟩ ∧
    (∃ r, processItemX storeA envRemoteErrX ⟨"SKU7", 5⟩ = .ok r ∧
      r.outcome = specAdjustOutcome ⟨200, some ["insufficient quantity"], ""⟩ ∧
      r.adjustCalls = [("gid-i", (5 : Int))] ∧
      (pyTruthyErrs (some ["insufficient quantity"]) = true →
        (⟨.warning, remoteErrMsg "SKU7" "storeA" ["insufficient quantity"]⟩ : LogEvent) ∈
          r.logs)) :=
  ⟨by decide, by decide, rfl,
    (adjuster_outcome_classificationX storeA envRemoteErrX ⟨"SKU7", 5⟩
      ⟨some "gid-v", some "gid-i", []⟩ ⟨200, .fields (some ["insufficient quantity"]), ""⟩
      (by decide) (by decide) rfl).1 (some ["insufficient quantity"]) rfl rfl⟩

lemma processItemX_fail_resp (store : StoreConfig) (env : RemoteEnvX) (item : StockRecord)
    (resp : LookupResponseX) (hresp : env.lookup item.sku = some resp)
    (h : resp.status ≠ 200) :
    processItemX store env item =
      .ok ⟨.skippedLookup, [⟨.warning, lookupFailMsg item.sku store.shop_name⟩], []⟩ := by
  have hlk := get_variantX_of_resp store env item.sku resp hresp
  rw [if_pos h] at hlk
  simp [processItemX, hlk, pyFalsyStr]

lemma syncX_all_fail (store : StoreConfig) (env : RemoteEnvX)
    (h : ∀ sku, ∃ resp, env.lookup sku = some resp ∧ resp.status ≠ 200)
    (items : List StockRecord) :
    ∃ r, update_shopify_inventoryX store env items = .ok r ∧
      r.updated_count = 0 ∧ r.skipped_count = items.length := by
  induction items with
  | nil => exact ⟨emptySync, rfl, rfl, rfl⟩
  | cons item rest ih =>
    obtain ⟨r, hr, hu, hs⟩ := ih
    obtain ⟨resp, hresp, hst⟩ := h item.sku
    have hp := processItemX_fail_resp store env item resp hresp hst
    refine ⟨combineSync ⟨0, 1, [⟨.warning, lookupFailMsg item.sku store.shop_name⟩], []⟩ r,
      ?_, ?_, ?_⟩
    · simp [update_shopify_inventoryX, hp, hr]
    · simp [combineSync, hu]
    · simp only [combineSync, hs, List.length_cons]
      omega

lemma storeLoopX_single_fail (rows : List Row) (items : List StockRecord)
    (hmap : map_excel_to_shopify rows = .ok items)
    (B : StoreConfig) (envB : RemoteEnvX)
    (hfail : ∀ sku, ∃ resp, envB.lookup sku = some resp ∧ resp.status ≠ 200) :
    storeLoopX rows [(B, envB)] = .ok (0, items.length) := by
  by_cases hemp : items.isEmpty
  · have h0 : items = [] := by cases items <;> simp_all
    simp [storeLoopX, hmap, hemp, h0]
  · obtain ⟨r, hr, hu, hs⟩ := syncX_all_fail B envB hfail items
    simp [storeLoopX, hmap, hemp, hr, hu, hs]

lemma storeLoopX_append (rows : List Row) (b : List (StoreConfig × RemoteEnvX))
    (ub sb : Nat) (hb : storeLoopX rows b = .ok (ub, sb)) :
    ∀ (a : List (StoreConfig × RemoteEnvX)) (ua sa : Nat),
      storeLoopX rows a = .ok (ua, sa) →
      storeLoopX rows (a ++ b) = .ok (ua + ub, sa + sb) := by
  intro a
  induction a with
  | nil =>
    intro ua sa ha
    simp only [storeLoopX, Except.ok.injEq, Prod.mk.injEq] at ha
    obtain ⟨h1, h2⟩ := ha
    subst h1; subst h2
    simpa using hb
  | cons t rest ih =>
    intro ua sa ha
    obtain ⟨store, env⟩ := t
    cases hm : map_excel_to_shopify rows with
    | error e =>
      simp only [storeLoopX, hm] at ha
      exact absurd ha (by simp)
    | ok items =>
      simp only [storeLoopX, hm] at ha
      by_cases hemp : items.isEmpty
      · rw [if_pos hemp] at ha
        cases hr : storeLoopX rows rest with
        | error e => rw [hr] at ha; exact absurd ha (by simp)
        | ok p =>
          obtain ⟨tu, ts⟩ := p
          rw [hr] at ha
          simp only [Except.ok.injEq, Prod.mk.injEq] at ha
          obtain ⟨h1, h2⟩ := ha
          subst h1; subst h2
          have hrec := ih tu ts hr
          show storeLoopX rows ((store, env) :: (rest ++ b)) = _
          simp only [storeLoopX, hm]
          rw [if_pos hemp, hrec]
      · rw [if_neg hemp] at ha
        cases hu : update_shopify_inventoryX store env items with
        | error e => rw [hu] at ha; exact absurd ha (by simp)
        | ok r =>
          rw [hu] at ha
          cases hr : storeLoopX rows rest with
          | error e => rw [hr] at ha; exact absurd ha (by simp)
          | ok p =>
            obtain ⟨tu, ts⟩ := p
            rw [hr] at ha
            simp only [Except.ok.injEq, Prod.mk.injEq] at ha
            obtain ⟨h1, h2⟩ := ha
            have hrec := ih tu ts hr
            show storeLoopX rows ((store, env) :: (rest ++ b)) = _
            simp only [storeLoopX, hm]
            rw [if_neg hemp, hu, hrec]
            simp only [Except.ok.injEq, Prod.mk.injEq]
            omega

/-- Counterexample for C6: the claim's own case — an endpoint unreachable
at sync time, i.e. `requests.post` raising `ConnectionError` — is
contagious: with store B (raising) configured before healthy store A, the
run aborts fatally during B's sync and A is never processed, although A
alone would have reached an Updated tally; B's failure did not leave A's
processing unchanged. -/
theorem target_contagion_counterexample :
    mainX cfgOk [(storeB, envRaiseX), (storeA, envGoodX)] (some rowsDemo) =
      ⟨.fatalRun (.pyExc .connectionError), 1⟩ ∧
    mainX cfgOk [(storeA, envGoodX)] (some rowsDemo) = ⟨.summary 1 0, 1⟩ :=
  ⟨by decide, by decide⟩

/-- C6 as amended: a failure while syncing one target that surfaces as
error responses (every request obtains a non-success status) degrades only
that target to a fully-skipped tally `(0, number of records)` and never
aborts the remaining targets, whose contributions to the summary are
exactly what the per-store loop yields for them alone. A failure that
raises inside the request call (e.g. `ConnectionError` on an unreachable
endpoint) instead propagates uncaught and aborts the remaining targets. -/
theorem target_failure_isolatedX (f : FtpConfig) (ts1 ts2 : List (StoreConfig × RemoteEnvX))
    (B : StoreConfig) (envB : RemoteEnvX) (rows : List Row) (items : List StockRecord)
    (u1 s1 u2 s2 : Nat)
    (hck : check_environment f ((ts1 ++ (B, envB) :: ts2).map Prod.fst) = .ok ())
    (hmap : map_excel_to_shopify rows = .ok items)
    (h1 : storeLoopX rows ts1 = .ok (u1, s1))
    (h2 : storeLoopX rows ts2 = .ok (u2, s2))
    (hfail : ∀ sku, ∃ resp, envB.lookup sku = some resp ∧ resp.status ≠ 200) :
    storeLoopX rows [(B, envB)] = .ok (0, items.length) ∧
    mainX f (ts1 ++ (B, envB) :: ts2) (some rows) =
      ⟨.summary (u1 + u2) (s1 + (items.length + s2)), 1⟩ := by
  have hB := storeLoopX_single_fail rows items hmap B envB hfail
  refine ⟨hB, ?_⟩
  have hmid : storeLoopX rows ((B, envB) :: ts2) = .ok (0 + u2, items.length + s2) :=
    storeLoopX_append rows ts2 u2 s2 h2 [(B, envB)] 0 items.length hB
  rw [Nat.zero_add] at hmid
  have hall := storeLoopX_append rows ((B, envB) :: ts2) u2 (items.length + s2) hmid ts1 u1 s1 h1
  simp only [mainX, hck, hall]

/-- Witness for the amended C6: healthy store A keeps its Updated tally
while store B's endpoint answers every request with an error status. -/
theorem target_failure_isolatedX_witness :
    check_environment cfgOk (([(storeA, envGoodX)] ++ (storeB, envDownX) :: []).map Prod.fst) =
      .ok () ∧
    storeLoopX rowsDemo [(storeA, envGoodX)] = .ok (1, 0) ∧
    envDownX.lookup "SKU123" = some ⟨503, .malformed⟩ ∧
    storeLoopX rowsDemo [(storeB, envDownX)] = .ok (0, itemsDemo.length) ∧
    mainX cfgOk ([(storeA, envGoodX)] ++ (storeB, envDownX) :: []) (some rowsDemo) =
      ⟨.summary (1 + 0) (0 + (itemsDemo.length + 0)), 1⟩ :=
  ⟨by decide, by decide, rfl,
    (target_failure_isolatedX cfgOk [(storeA, envGoodX)] [] storeB envDownX rowsDemo itemsDemo
      1 0 0 0 (by decide) (by decide) (by decide) (by decide)
      (fun _ => ⟨⟨503, .malformed⟩, rfl, by decide⟩)).1,
    (target_failure_isolatedX cfgOk [(storeA, envGoodX)] [] storeB envDownX rowsDemo itemsDemo
      1 0 0 0 (by decide) (by decide) (by decide) (by decide)
      (fun _ => ⟨⟨503, .malformed⟩, rfl, by decide⟩)).2⟩

end StockUpdater
